import Mathlib

/-!
Verification development for the Claude Usage Monitor background service
worker (background.js, in two variants: the thermometer-bar icon variant
and the circular-progress variant).

The JavaScript is shallowly embedded: numbers become rationals, fallible
steps (fetch rejections, response.json() rejections, thrown errors) become
Except values, the chrome.storage cache becomes an explicit Option String
threaded through each call, and chrome.action side effects become values of
an action list type. Angles passed to canvas arc calls are exact rational
multiples of Math.PI in the source, so they are embedded as their rational
coefficient of pi.
-/

namespace ClaudeUsage

/-! ## JSON documents -/

/-- The organization object inside a bootstrap membership. -/
structure Organization where
  uuid : Option String
  deriving DecidableEq

/-- One entry of account.memberships. -/
structure Membership where
  organization : Option Organization
  deriving DecidableEq

/-- The account object of the bootstrap document; memberships may be absent. -/
structure Account where
  memberships : Option (List Membership)
  deriving DecidableEq

/-- The bootstrap JSON document. -/
structure BootstrapDoc where
  account : Option Account
  deriving DecidableEq

/-- The five_hour entry of the usage document; both fields may be absent. -/
structure FiveHour where
  utilization : Option ℚ
  resets_at : Option String
  deriving DecidableEq

/-- The usage JSON document; the five_hour entry may be absent. -/
structure UsageData where
  five_hour : Option FiveHour
  deriving DecidableEq

/-- Embedding of `data?.account?.memberships?.[0]?.organization?.uuid`
(background.js line 108): each `?.` step is an Option.bind. -/
def extractOrgId (data : Option BootstrapDoc) : Option String :=
  ((((data.bind (·.account)).bind (·.memberships)).bind (·.head?)).bind
    (·.organization)).bind (·.uuid)

/-! ## Icon rendering -/

/-- Canvas drawing commands issued by the icon generators. Angles of
strokeArc are given as rational coefficients of pi; `cap` records the
lineCap in force when the stroke is issued. `fillPct` is fillText of the
percentage value followed by a percent sign; `fillGlyph` is fillText of a
fixed glyph. -/
inductive DrawCmd where
  | fillRect (color : String) (x y w h : ℚ)
  | clearRect (x y w h : ℚ)
  | strokeArc (color : String) (lineWidth : ℚ) (cap : String)
      (cx cy r : ℚ) (startAngle endAngle : ℚ)
  | fillPct (color : String) (fontPx : ℚ) (pct : ℚ) (x y : ℚ)
  | fillGlyph (color : String) (fontPx : ℚ) (glyph : String) (x y : ℚ)
  | fillCircle (color : String) (cx cy r : ℚ)
  deriving DecidableEq

/-- The raster returned by ctx.getImageData: its dimensions and the drawing
commands that determine every pixel. -/
structure Raster where
  width : ℕ
  height : ℕ
  cmds : List DrawCmd
  deriving DecidableEq

/-- Fill color of the thermometer bar (background.js line 132):
green below 50, yellow below 80, red otherwise. -/
def fillColor (percentage : ℚ) : String :=
  if percentage < 50 then "#10b981"
  else if percentage < 80 then "#f59e0b"
  else "#ef4444"

/-- Progress-arc color of the circular variant (part_000 lines 134-142):
the same three thresholds. -/
def progressColor (percentage : ℚ) : String :=
  if percentage < 50 then "#10b981"
  else if percentage < 80 then "#f59e0b"
  else "#ef4444"

/-- The frame color constant. -/
def claudeOrange : String := "#D97706"

/-- `size <= 16 ? 1 : 2` (background.js line 136). -/
def padding (size : ℕ) : ℚ := if size ≤ 16 then 1 else 2

/-- `size <= 16 ? 1 : 2` (background.js line 137). -/
def borderWidth (size : ℕ) : ℚ := if size ≤ 16 then 1 else 2

/-- `size - padding * 2` (background.js line 142). -/
def frameWidth (size : ℕ) : ℚ := (size : ℚ) - padding size * 2

/-- `Math.floor(size * 0.4)` (background.js line 143). -/
def frameHeight (size : ℕ) : ℚ := ((⌊(size : ℚ) * (4 / 10)⌋ : ℤ) : ℚ)

/-- `frameX + borderWidth` (background.js line 153). -/
def barX (size : ℕ) : ℚ := padding size + borderWidth size

/-- `frameY + borderWidth` (background.js line 154). -/
def barY (size : ℕ) : ℚ := padding size + borderWidth size

/-- `frameWidth - borderWidth * 2` (background.js line 155). -/
def barMaxWidth (size : ℕ) : ℚ := frameWidth size - borderWidth size * 2

/-- `frameHeight - borderWidth * 2` (background.js line 156). -/
def barHeight (size : ℕ) : ℚ := frameHeight size - borderWidth size * 2

/-- `Math.max(1, (barMaxWidth * percentage) / 100)` (background.js line 157). -/
def barWidth (percentage : ℚ) (size : ℕ) : ℚ :=
  max 1 (barMaxWidth size * percentage / 100)

/-- Embedding of the thermometer-bar generateIcon (background.js lines
127-165): four orange frame rectangles, then the colored fill bar when the
inner bar area is positive. -/
def generateIcon (percentage : ℚ) (size : ℕ) : Raster :=
  let fillC := fillColor percentage
  let fx := padding size
  let fy := padding size
  let bw := borderWidth size
  let fw := frameWidth size
  let fh := frameHeight size
  let frameCmds : List DrawCmd :=
    [ DrawCmd.fillRect claudeOrange fx fy fw bw,
      DrawCmd.fillRect claudeOrange fx fy bw fh,
      DrawCmd.fillRect claudeOrange (fx + fw - bw) fy bw fh,
      DrawCmd.fillRect claudeOrange fx (fy + fh - bw) fw bw ]
  let barCmds : List DrawCmd :=
    if 0 < barHeight size ∧ 0 < barWidth percentage size then
      [ DrawCmd.fillRect fillC (barX size) (barY size)
          (barWidth percentage size) (barHeight size) ]
    else []
  ⟨size, size, frameCmds ++ barCmds⟩

/-- `Math.max(2, size / 8)` (part_000 line 147). -/
def lineWidthCirc (size : ℕ) : ℚ := max 2 ((size : ℚ) / 8)

/-- `size / 2 - 2` (part_000 line 146). -/
def radiusCirc (size : ℕ) : ℚ := (size : ℚ) / 2 - 2

/-- `-Math.PI / 2` (part_000 line 160), as a coefficient of pi. -/
def startAngleCoeff : ℚ := -(1 / 2)

/-- `startAngle + (percentage / 100) * 2 * Math.PI` (part_000 line 161),
as a coefficient of pi. -/
def endAngleCoeff (percentage : ℚ) : ℚ :=
  startAngleCoeff + percentage / 100 * 2

/-- Embedding of the circular-progress generateIcon (part_000 lines
130-180): clear, background circle, progress arc, and the percentage text
for sizes of 32 and up. -/
def generateIconCircular (percentage : ℚ) (size : ℕ) : Raster :=
  let s : ℚ := (size : ℚ)
  let cx := s / 2
  let cy := s / 2
  let r := radiusCirc size
  let lw := lineWidthCirc size
  let baseCmds : List DrawCmd :=
    [ DrawCmd.clearRect 0 0 s s,
      DrawCmd.strokeArc "#e5e7eb" lw "butt" cx cy r 0 2,
      DrawCmd.strokeArc (progressColor percentage) lw "round" cx cy r
        startAngleCoeff (endAngleCoeff percentage) ]
  let textCmds : List DrawCmd :=
    if 32 ≤ size then [ DrawCmd.fillPct "#1f2937" (s / 3) percentage cx cy ]
    else []
  ⟨size, size, baseCmds ++ textCmds⟩

/-! ## Chrome action surface -/

/-- The argument of chrome.action.setIcon: either a static path or
per-size image data. -/
inductive IconSpec where
  | pathIcon (path : String)
  | imageIcons (i16 i32 i48 : Raster)
  deriving DecidableEq

/-- One chrome.action call issued by the badge updaters. -/
inductive ChromeAction where
  | setIcon (icon : IconSpec)
  | setBadgeText (text : String)
  | setBadgeTextColor (color : String)
  | setBadgeBackgroundColor (r g b a : ℕ)
  | setTitle (title : String)
  deriving DecidableEq

/-- First setIcon argument in an action list. -/
def firstIcon : List ChromeAction → Option IconSpec
  | [] => none
  | ChromeAction.setIcon i :: _ => some i
  | _ :: rest => firstIcon rest

/-- First setBadgeText argument in an action list. -/
def firstBadgeText : List ChromeAction → Option String
  | [] => none
  | ChromeAction.setBadgeText t :: _ => some t
  | _ :: rest => firstBadgeText rest

/-- First setTitle argument in an action list. -/
def firstTitle : List ChromeAction → Option String
  | [] => none
  | ChromeAction.setTitle t :: _ => some t
  | _ :: rest => firstTitle rest

/-- Embedding of updateBadgeError (background.js lines 215-220): static
error icon path, empty badge text, and a tooltip built from a fixed
login hint plus the message. -/
def updateBadgeError (message : String) : List ChromeAction :=
  [ ChromeAction.setIcon (IconSpec.pathIcon "error-icon.png"),
    ChromeAction.setBadgeText "",
    ChromeAction.setTitle
      ("Make sure you are logged in to Claude.ai!\nError: " ++ message) ]

/-- The gray error glyph drawn by the circular variant of updateBadgeError
(part_000 lines 238-259): a 48x48 canvas with a gray filled circle and a
white exclamation glyph. -/
def errorIconCircular : Raster :=
  let size : ℕ := 48
  let s : ℚ := (size : ℚ)
  let cx := s / 2
  let cy := s / 2
  let r := s / 2 - 2
  ⟨size, size,
    [ DrawCmd.fillCircle "#6b7280" cx cy r,
      DrawCmd.fillGlyph "#ffffff" (s / 2) "!" cx cy ]⟩

/-- Embedding of updateBadgeError in the circular variant (part_000 lines
236-271): the drawn gray glyph at all three icon slots, empty badge text,
and a tooltip built from a fixed header plus the message. -/
def updateBadgeErrorCircular (message : String) : List ChromeAction :=
  [ ChromeAction.setIcon
      (IconSpec.imageIcons errorIconCircular errorIconCircular errorIconCircular),
    ChromeAction.setBadgeText "",
    ChromeAction.setTitle ("Claude Usage Monitor\nError: " ++ message) ]

/-- `${percentage}%` for the badge text; number-to-string formatting is
abstracted by the standard rational printer. -/
def pctText (p : ℚ) : String := toString p ++ "%"

/-- The success path of updateBadge (background.js lines 179-209), with
the locale time formatter of `new Date(t).toLocaleTimeString(...)`
supplied as the host function fmt. -/
def successActions (fmt : String → String) (percentage : ℚ)
    (resetsAt : Option String) : List ChromeAction :=
  let resetTimeStr :=
    match resetsAt with
    | some t => if t = "" then "Unknown" else fmt t
    | none => "Unknown"
  [ ChromeAction.setIcon
      (IconSpec.imageIcons (generateIcon percentage 16)
        (generateIcon percentage 32) (generateIcon percentage 48)),
    ChromeAction.setBadgeText (pctText percentage),
    ChromeAction.setBadgeTextColor "#D97706",
    ChromeAction.setBadgeBackgroundColor 0 0 0 0,
    ChromeAction.setTitle
      ("Claude Usage Monitor\n" ++ pctText percentage ++ " used\nResets at "
        ++ resetTimeStr) ]

/-- Abstract outcome of one render: either the error state with its
message, or the success path with the percentage and reset time it shows. -/
inductive Render where
  | errorState (message : String)
  | success (percentage : ℚ) (resetsAt : Option String)
  deriving DecidableEq

/-- Whether a render outcome is the error state. -/
def isErrorRender : Render → Bool
  | Render.errorState _ => true
  | Render.success _ _ => false

/-- Embedding of updateBadge (background.js lines 168-212) at the outcome
level: a missing five_hour renders the error state; otherwise the success
path runs with `fiveHour.utilization || 0` (absent or zero utilization both
yield 0). -/
def updateBadgeRender (data : UsageData) : Render :=
  match data.five_hour with
  | none => Render.errorState "No data"
  | some fh => Render.success (fh.utilization.getD 0) fh.resets_at

/-- Embedding of updateBadge at the chrome-action level. -/
def updateBadgeActions (fmt : String → String) (data : UsageData) :
    List ChromeAction :=
  match data.five_hour with
  | none => updateBadgeError "No data"
  | some fh => successActions fmt (fh.utilization.getD 0) fh.resets_at

/-! ## Fetch pipeline -/

/-- A settled fetch Response together with the outcome of response.json():
ok and status from the Response, json an Except because parsing may
reject. -/
structure FetchResult (α : Type) where
  ok : Bool
  status : ℕ
  json : Except String α

/-- The network environment of one polling cycle: what the bootstrap and
usage endpoints would deliver. An Except.error at the outer level is a
rejected fetch (network failure); its string is the thrown error message. -/
structure Env where
  bootstrap : Except String (FetchResult (Option BootstrapDoc))
  usage : Except String (FetchResult UsageData)

/-- JavaScript truthiness of the cached orgId value: present and
non-empty. -/
def truthyOpt : Option String → Bool
  | some s => !(s == "")
  | none => false

/-- Result of one getOrganizationId call: the returned value (null becomes
none), the cache after the call, whether the bootstrap endpoint was
fetched, and the value written to the cache, if any. -/
structure OrgIdResult where
  result : Option String
  cache : Option String
  fetchedBootstrap : Bool
  wrote : Option String
  deriving DecidableEq

/-- The bootstrap-fetch path of getOrganizationId (background.js lines
95-123): any rejected fetch, non-ok status, parse failure, missing or
falsy uuid is thrown and caught, returning null with the cache unchanged;
a truthy uuid is cached and returned. -/
def bootstrapFetchOrgId (env : Env) (cache : Option String) : OrgIdResult :=
  match env.bootstrap with
  | Except.error _ => ⟨none, cache, true, none⟩
  | Except.ok resp =>
    if resp.ok = false then ⟨none, cache, true, none⟩
    else
      match resp.json with
      | Except.error _ => ⟨none, cache, true, none⟩
      | Except.ok data =>
        match extractOrgId data with
        | none => ⟨none, cache, true, none⟩
        | some s =>
          if s = "" then ⟨none, cache, true, none⟩
          else ⟨some s, some s, true, some s⟩

/-- Embedding of getOrganizationId (background.js lines 86-124): a truthy
cached value is returned without fetching; otherwise the bootstrap path
runs. -/
def getOrganizationId (env : Env) (cache : Option String) : OrgIdResult :=
  match cache with
  | some c =>
    if c = "" then bootstrapFetchOrgId env cache
    else ⟨some c, some c, false, none⟩
  | none => bootstrapFetchOrgId env cache

/-- getOrganizationId over consecutive polling cycles, threading the
cache. -/
def orgIdCycles (envs : List Env) (cache : Option String) : List OrgIdResult :=
  match envs with
  | [] => []
  | e :: rest =>
    getOrganizationId e cache
      :: orgIdCycles rest (getOrganizationId e cache).cache

/-- The remainder of fetchAndUpdateUsage after orgId resolution
(background.js lines 59-82): falsy orgId or any thrown error along the
usage fetch, parse, or render is caught and rendered as the error state. -/
def fetchUsagePhase (env : Env) (r : OrgIdResult) : Render × Option String :=
  match r.result with
  | none => (Render.errorState "No org ID", r.cache)
  | some orgId =>
    if orgId = "" then (Render.errorState "No org ID", r.cache)
    else
      match env.usage with
      | Except.error e => (Render.errorState e, r.cache)
      | Except.ok resp =>
        if resp.ok = false then
          (Render.errorState ("HTTP " ++ toString resp.status), r.cache)
        else
          match resp.json with
          | Except.error e => (Render.errorState e, r.cache)
          | Except.ok data => (updateBadgeRender data, r.cache)

/-- Embedding of fetchAndUpdateUsage (background.js lines 54-83): resolve
the orgId, then run the usage phase; the try/catch makes the whole cycle a
total function into a Render. -/
def fetchAndUpdateUsage (env : Env) (cache : Option String) :
    Render × Option String :=
  fetchUsagePhase env (getOrganizationId env cache)

/-! ## Failure predicates for the claims -/

/-- The endpoint answered with a non-success HTTP status. -/
def fetchNonOk {α : Type} : Except String (FetchResult α) → Bool
  | Except.ok resp => !resp.ok
  | Except.error _ => false

/-- The usage fetch step fails: rejected request or non-success status. -/
def usageFetchFails (env : Env) : Bool :=
  match env.usage with
  | Except.error _ => true
  | Except.ok resp => !resp.ok

/-- The usage body fails to parse: the request succeeded with an ok
status, and response.json() rejected. -/
def usageParseFails (env : Env) : Bool :=
  match env.usage with
  | Except.ok resp =>
    match resp.json with
    | Except.error _ => resp.ok
    | Except.ok _ => false
  | Except.error _ => false

/-- The parsed usage document has no five_hour entry. -/
def fieldExtractionFails (env : Env) : Bool :=
  match env.usage with
  | Except.ok resp =>
    match resp.json with
    | Except.ok data => data.five_hour.isNone
    | Except.error _ => false
  | Except.error _ => false

/-! ## Purity wrappers for the icon generators -/

/-- generateIcon as a state transformer over an arbitrary world type: the
source allocates a local OffscreenCanvas, draws on its local context, and
touches no ambient state, so its embedding neither reads nor writes the
world. -/
def generateIconRun (W : Type) (percentage : ℚ) (size : ℕ) (w : W) :
    Raster × W :=
  (generateIcon percentage size, w)

/-- The circular-variant generateIcon as a state transformer, likewise. -/
def generateIconCircularRun (W : Type) (percentage : ℚ) (size : ℕ) (w : W) :
    Raster × W :=
  (generateIconCircular percentage size, w)

end ClaudeUsage

namespace ClaudeUsage

/-- Claim C1: in both icon renderers, the fill color is green (#10b981)
when the percentage is below 50, yellow (#f59e0b) when it is at least 50
and below 80, and red (#ef4444) when it is at least 80. -/
theorem fillColor_thresholds (p : ℚ) :
    (p < 50 → fillColor p = "#10b981" ∧ progressColor p = "#10b981")
    ∧ (50 ≤ p → p < 80 → fillColor p = "#f59e0b" ∧ progressColor p = "#f59e0b")
    ∧ (80 ≤ p → fillColor p = "#ef4444" ∧ progressColor p = "#ef4444") := by
  unfold fillColor progressColor
  refine ⟨fun h => ?_, fun h1 h2 => ?_, fun h => ?_⟩ <;>
    split_ifs <;> first | exact ⟨rfl, rfl⟩ | linarith

/-- Witness for C1 at the concrete percentages 30, 60 and 90. -/
theorem fillColor_thresholds_witness :
    fillColor 30 = "#10b981" ∧ fillColor 60 = "#f59e0b" ∧
      fillColor 90 = "#ef4444" :=
  ⟨((fillColor_thresholds 30).1 (by norm_num)).1,
   ((fillColor_thresholds 60).2.1 (by norm_num) (by norm_num)).1,
   ((fillColor_thresholds 90).2.2 (by norm_num)).1⟩

/-- Claim C5: generateIcon is a deterministic pure function. Both icon
generators, embedded as state transformers over an arbitrary world, give
rasters that do not depend on the world and leave the world unchanged: any
two evaluations at the same percentage and size yield identical raster
output, with no side effects beyond returning the pixel data. -/
theorem generateIcon_deterministic_pure (W : Type) (p : ℚ) (size : ℕ)
    (w w' : W) :
    (generateIconRun W p size w).1 = (generateIconRun W p size w').1
    ∧ (generateIconRun W p size w).2 = w
    ∧ (generateIconRun W p size w).1 = generateIcon p size
    ∧ (generateIconCircularRun W p size w).1
        = (generateIconCircularRun W p size w').1
    ∧ (generateIconCircularRun W p size w).2 = w
    ∧ (generateIconCircularRun W p size w).1 = generateIconCircular p size :=
  ⟨rfl, rfl, rfl, rfl, rfl, rfl⟩

/-- Claim C9: for every percentage p at least 0 and every size whose inner
bar area is non-degenerate, the thermometer bar is at least 1 pixel wide
and is actually drawn in that color, and at 0 percent its width is exactly
1. -/
theorem generateIcon_min_bar (p : ℚ) (size : ℕ) (hp : 0 ≤ p)
    (hh : 0 < barHeight size) :
    1 ≤ barWidth p size
    ∧ DrawCmd.fillRect (fillColor p) (barX size) (barY size)
        (barWidth p size) (barHeight size) ∈ (generateIcon p size).cmds
    ∧ barWidth 0 size = 1 := by
  have h1 : (1 : ℚ) ≤ barWidth p size := le_max_left _ _
  refine ⟨h1, ?_, ?_⟩
  · have hw : 0 < barWidth p size := lt_of_lt_of_le one_pos h1
    simp [generateIcon, hh, hw]
  · have hz : barMaxWidth size * 0 / 100 = 0 := by ring
    rw [barWidth, hz]
    exact max_eq_left (by norm_num)

/-- Witness for C9 at percentage 0 and size 16, where the inner bar area
is 12 by 4. -/
theorem generateIcon_min_bar_witness :
    1 ≤ barWidth 0 16
    ∧ DrawCmd.fillRect (fillColor 0) (barX 16) (barY 16)
        (barWidth 0 16) (barHeight 16) ∈ (generateIcon 0 16).cmds
    ∧ barWidth 0 16 = 1 :=
  generateIcon_min_bar 0 16 le_rfl
    (by norm_num [barHeight, frameHeight, borderWidth])

/-- Claim C10: generateIcon performs no clamping. For every percentage
above 100, the thermometer bar width strictly exceeds the inner frame
width, and the circular progress arc sweeps beyond one full revolution
(its angle coefficients of pi differ by more than 2). -/
theorem generateIcon_no_clamping (p : ℚ) (size : ℕ) (hp : 100 < p) :
    barMaxWidth size < barWidth p size
    ∧ 2 < endAngleCoeff p - startAngleCoeff := by
  constructor
  · rcases le_or_lt (barMaxWidth size) 0 with h | h
    · calc barMaxWidth size ≤ 0 := h
        _ < 1 := one_pos
        _ ≤ barWidth p size := le_max_left _ _
    · have h2 : barMaxWidth size < barMaxWidth size * p / 100 := by
        rw [lt_div_iff₀ (by norm_num : (0 : ℚ) < 100)]
        exact mul_lt_mul_of_pos_left hp h
      exact lt_of_lt_of_le h2 (le_max_right _ _)
  · unfold endAngleCoeff startAngleCoeff
    linarith

/-- Witness for C10 at percentage 150 and size 16: bar width 18 against
inner frame width 12, and an arc sweep of 3 pi-halves-of-two. -/
theorem generateIcon_no_clamping_witness :
    barMaxWidth 16 < barWidth 150 16
    ∧ 2 < endAngleCoeff 150 - startAngleCoeff :=
  generateIcon_no_clamping 150 16 (by norm_num)

/-- Counterexample to C2 as stated: a usage document whose five_hour entry
is present but whose utilization field is absent is rendered through the
success path with the default percentage 0, not through the error state. -/
theorem updateBadge_missing_utilization_cex :
    updateBadgeRender ⟨some ⟨none, none⟩⟩ = Render.success 0 none
    ∧ updateBadgeRender ⟨some ⟨none, none⟩⟩ ≠ Render.errorState "No data" :=
  ⟨rfl, by simp [updateBadgeRender]⟩

/-- Claim C2 as amended: when the five_hour entry is absent, updateBadge
renders the error state; when five_hour is present, the success path runs
with the percentage `utilization || 0`, so an absent utilization yields
the default percentage 0 rather than the error state. -/
theorem updateBadge_field_handling (data : UsageData) :
    (data.five_hour = none →
      updateBadgeRender data = Render.errorState "No data")
    ∧ (∀ fh, data.five_hour = some fh →
        updateBadgeRender data
          = Render.success (fh.utilization.getD 0) fh.resets_at) := by
  constructor
  · intro h
    simp [updateBadgeRender, h]
  · intro fh h
    simp [updateBadgeRender, h]

/-- Witness for the amended C2: a document with no five_hour entry renders
the error state, and one with utilization 42 renders 42. -/
theorem updateBadge_field_handling_witness :
    updateBadgeRender ⟨none⟩ = Render.errorState "No data"
    ∧ updateBadgeRender ⟨some ⟨some 42, none⟩⟩
        = Render.success ((some (42 : ℚ)).getD 0) none :=
  ⟨(updateBadge_field_handling ⟨none⟩).1 rfl,
   (updateBadge_field_handling ⟨some ⟨some 42, none⟩⟩).2 ⟨some 42, none⟩ rfl⟩

/-- Counterexample to C6 as stated: the tooltip set by updateBadgeError is
not the message itself; at message "No data" the stored title is the fixed
login hint followed by the message. -/
theorem updateBadgeError_title_cex :
    firstTitle (updateBadgeError "No data") ≠ some "No data" := by
  decide

/-- Claim C6 as amended: updateBadgeError renders a fixed error icon that
does not depend on the message (the static path in the thermometer
variant, the drawn gray glyph in the circular variant), sets the badge
text to the empty string, and sets the tooltip to a fixed prefix followed
by the message. -/
theorem updateBadgeError_behavior (m m' : String) :
    firstIcon (updateBadgeError m) = firstIcon (updateBadgeError m')
    ∧ firstIcon (updateBadgeError m)
        = some (IconSpec.pathIcon "error-icon.png")
    ∧ firstBadgeText (updateBadgeError m) = some ""
    ∧ firstTitle (updateBadgeError m)
        = some ("Make sure you are logged in to Claude.ai!\nError: " ++ m)
    ∧ firstIcon (updateBadgeErrorCircular m)
        = firstIcon (updateBadgeErrorCircular m')
    ∧ firstIcon (updateBadgeErrorCircular m)
        = some (IconSpec.imageIcons errorIconCircular errorIconCircular
            errorIconCircular)
    ∧ firstBadgeText (updateBadgeErrorCircular m) = some ""
    ∧ firstTitle (updateBadgeErrorCircular m)
        = some ("Claude Usage Monitor\nError: " ++ m) :=
  ⟨rfl, rfl, rfl, rfl, rfl, rfl, rfl, rfl⟩

/-! ## Shared lemmas about the fetch pipeline -/

/-- A truthy cached value is returned directly, with no fetch and no
write. -/
lemma getOrganizationId_cached (env : Env) (c : String) (hc : c ≠ "") :
    getOrganizationId env (some c)
      = OrgIdResult.mk (some c) (some c) false none := by
  simp [getOrganizationId, hc]

/-- The bootstrap path returns only truthy identifiers, writes only truthy
identifiers, and either leaves the cache alone or stores a truthy
identifier. -/
lemma bootstrapFetchOrgId_spec (env : Env) (cache : Option String) :
    (∀ s, (bootstrapFetchOrgId env cache).result = some s → s ≠ "")
    ∧ (∀ v, (bootstrapFetchOrgId env cache).wrote = some v → v ≠ "")
    ∧ ((bootstrapFetchOrgId env cache).cache = cache
        ∨ ∃ s, s ≠ "" ∧ (bootstrapFetchOrgId env cache).cache = some s) := by
  obtain ⟨b, u⟩ := env
  rcases b with e | ⟨ok, status, json⟩
  · simp [bootstrapFetchOrgId]
  · rcases json with e | data
    · rcases ok <;> simp [bootstrapFetchOrgId]
    · rcases hx : extractOrgId data with _ | s
      · rcases ok <;> simp [bootstrapFetchOrgId, hx]
      · by_cases hs : s = ""
        · rcases ok <;> simp [bootstrapFetchOrgId, hx, hs]
        · rcases ok <;> simp [bootstrapFetchOrgId, hx, hs]

/-- The usage phase renders the error state whenever the usage endpoint
answered with a non-success status. -/
lemma fetchUsagePhase_usage_nonOk (env : Env) (r : OrgIdResult)
    (h : fetchNonOk env.usage = true) :
    isErrorRender (fetchUsagePhase env r).1 = true := by
  rcases hr : r.result with _ | orgId
  · simp [fetchUsagePhase, hr, isErrorRender]
  · by_cases ho : orgId = ""
    · simp [fetchUsagePhase, hr, ho, isErrorRender]
    · rcases hu : env.usage with e | resp
      · simp [fetchUsagePhase, hr, ho, hu, isErrorRender]
      · have hok : resp.ok = false := by simpa [fetchNonOk, hu] using h
        simp [fetchUsagePhase, hr, ho, hu, hok, isErrorRender]

/-- The usage phase renders the error state whenever any step of the
chain after orgId resolution fails, or the resolved orgId is falsy. -/
lemma fetchUsagePhase_fails (env : Env) (r : OrgIdResult)
    (h : truthyOpt r.result = false
        ∨ usageFetchFails env = true
        ∨ usageParseFails env = true
        ∨ fieldExtractionFails env = true) :
    isErrorRender (fetchUsagePhase env r).1 = true := by
  rcases hr : r.result with _ | orgId
  · simp [fetchUsagePhase, hr, isErrorRender]
  · by_cases ho : orgId = ""
    · simp [fetchUsagePhase, hr, ho, isErrorRender]
    · have h' : usageFetchFails env = true ∨ usageParseFails env = true
          ∨ fieldExtractionFails env = true := by
        rcases h with h | h | h | h
        · rw [hr] at h
          simp [truthyOpt] at h
          exact absurd h ho
        · exact Or.inl h
        · exact Or.inr (Or.inl h)
        · exact Or.inr (Or.inr h)
      rcases hu : env.usage with e | resp
      · simp [fetchUsagePhase, hr, ho, hu, isErrorRender]
      · by_cases hok : resp.ok = false
        · simp [fetchUsagePhase, hr, ho, hu, hok, isErrorRender]
        · rcases hj : resp.json with e | data
          · simp [fetchUsagePhase, hr, ho, hu, hok, hj, isErrorRender]
          · have hnone : data.five_hour = none := by
              rcases h' with h' | h' | h'
              · have : resp.ok = false := by
                  simpa [usageFetchFails, hu] using h'
                exact absurd this hok
              · simp [usageParseFails, hu, hj] at h'
              · simpa [fieldExtractionFails, hu, hj,
                  Option.isNone_iff_eq_none] using h'
            simp [fetchUsagePhase, hr, ho, hu, hok, hj,
              updateBadgeRender, hnone, isErrorRender]

/-! ## Example environments for the witnesses -/

/-- A bootstrap body whose first membership carries the uuid org-1. -/
def egBootBody : Option BootstrapDoc :=
  some ⟨some ⟨some [⟨some ⟨some "org-1"⟩⟩]⟩⟩

/-- An environment whose bootstrap fetch succeeds with org-1 and whose
usage fetch rejects. -/
def egEnv : Env :=
  ⟨Except.ok ⟨true, 200, Except.ok egBootBody⟩, Except.error "Failed to fetch"⟩

/-- An environment where both endpoints answer with non-success HTTP
statuses. -/
def egEnvBad : Env :=
  ⟨Except.ok ⟨false, 403, Except.error "no body"⟩,
   Except.ok ⟨false, 500, Except.error "no body"⟩⟩

/-- An environment with a cached-friendly usage answer whose parsed body
has no five_hour entry. -/
def egEnvNoField : Env :=
  ⟨Except.error "unused", Except.ok ⟨true, 200, Except.ok ⟨none⟩⟩⟩

/-- Claim C8: getOrganizationId returns either a truthy identifier or
null (its catch swallows every thrown error, so the embedding is total);
it writes only truthy values to the cache, and it preserves the invariant
that a stored identifier is non-empty. -/
theorem getOrganizationId_safe (env : Env) (cache : Option String) :
    (∀ s, (getOrganizationId env cache).result = some s → s ≠ "")
    ∧ (∀ v, (getOrganizationId env cache).wrote = some v → v ≠ "")
    ∧ ((∀ c, cache = some c → c ≠ "") →
        ∀ c, (getOrganizationId env cache).cache = some c → c ≠ "") := by
  rcases cache with _ | c
  · have hgo : getOrganizationId env none = bootstrapFetchOrgId env none := rfl
    rw [hgo]
    have h := bootstrapFetchOrgId_spec env none
    refine ⟨h.1, h.2.1, ?_⟩
    intro _ c hc
    rcases h.2.2 with hsame | ⟨s, hs, hcs⟩
    · rw [hsame] at hc
      cases hc
    · rw [hcs] at hc
      cases hc
      exact hs
  · by_cases hc0 : c = ""
    · subst hc0
      have h := bootstrapFetchOrgId_spec env (some "")
      have hgo : getOrganizationId env (some "")
          = bootstrapFetchOrgId env (some "") := by
        simp [getOrganizationId]
      rw [hgo]
      refine ⟨h.1, h.2.1, ?_⟩
      intro hinv
      exact absurd rfl (hinv "" rfl)
    · rw [getOrganizationId_cached env c hc0]
      refine ⟨?_, ?_, ?_⟩
      · intro s hs
        cases hs
        exact hc0
      · intro v hv
        cases hv
      · intro _ c' hc'
        cases hc'
        exact hc0

/-- Witness for C8: a successful bootstrap environment yields the truthy
identifier org-1 from an empty cache, and a truthy cached value survives
the invariant. -/
theorem getOrganizationId_safe_witness :
    ("org-1" : String) ≠ "" ∧ ("org-x" : String) ≠ "" :=
  ⟨(getOrganizationId_safe egEnv none).1 "org-1" rfl,
   (getOrganizationId_safe egEnv (some "org-x")).2.2
     (fun c h => by cases h; decide) "org-x" rfl⟩

/-- Claim C4: whenever the bootstrap endpoint (on a cycle that actually
consults it, that is, with no truthy cached identifier) or the usage
endpoint answers with a non-success HTTP status, the cycle terminates in
the error state; the embedded try/catch makes fetchAndUpdateUsage total,
so no exception escapes. -/
theorem nonsuccess_status_errors (env : Env) (cache : Option String)
    (h : (truthyOpt cache = false ∧ fetchNonOk env.bootstrap = true)
        ∨ fetchNonOk env.usage = true) :
    isErrorRender (fetchAndUpdateUsage env cache).1 = true := by
  rcases h with ⟨hc, hb⟩ | hu
  · have hres : (getOrganizationId env cache).result = none := by
      rcases hbe : env.bootstrap with e | resp
      · rw [hbe] at hb
        simp [fetchNonOk] at hb
      · have hok : resp.ok = false := by
          rw [hbe] at hb
          simpa [fetchNonOk] using hb
        rcases cache with _ | c
        · simp [getOrganizationId, bootstrapFetchOrgId, hbe, hok]
        · have hc0 : c = "" := by simpa [truthyOpt] using hc
          subst hc0
          simp [getOrganizationId, bootstrapFetchOrgId, hbe, hok]
    show isErrorRender (fetchUsagePhase env (getOrganizationId env cache)).1
        = true
    simp [fetchUsagePhase, hres, isErrorRender]
  · exact fetchUsagePhase_usage_nonOk env (getOrganizationId env cache) hu

/-- Witness for C4 in an environment where both endpoints answer 403 and
500. -/
theorem nonsuccess_status_errors_witness :
    isErrorRender (fetchAndUpdateUsage egEnvBad none).1 = true :=
  nonsuccess_status_errors egEnvBad none (Or.inl ⟨rfl, rfl⟩)

/-- Claim C7: in every polling cycle in which identifier resolution, the
usage fetch, the parse, or the five_hour field extraction fails, the cycle
renders the error state and the success path of updateBadge is never
executed. -/
theorem chain_failure_aborts (env : Env) (cache : Option String)
    (h : truthyOpt (getOrganizationId env cache).result = false
        ∨ usageFetchFails env = true
        ∨ usageParseFails env = true
        ∨ fieldExtractionFails env = true) :
    isErrorRender (fetchAndUpdateUsage env cache).1 = true
    ∧ ∀ p ra, (fetchAndUpdateUsage env cache).1 ≠ Render.success p ra := by
  have hmain : isErrorRender (fetchAndUpdateUsage env cache).1 = true :=
    fetchUsagePhase_fails env (getOrganizationId env cache) h
  refine ⟨hmain, ?_⟩
  intro p ra hsucc
  rw [hsucc] at hmain
  simp [isErrorRender] at hmain

/-- Witness for C7: with a cached identifier and a usage body lacking the
five_hour entry, the cycle ends in the error state. -/
theorem chain_failure_aborts_witness :
    isErrorRender (fetchAndUpdateUsage egEnvNoField (some "org-1")).1
      = true :=
  (chain_failure_aborts egEnvNoField (some "org-1")
    (Or.inr (Or.inr (Or.inr rfl)))).1

/-- The cycles following a truthy cache all read the cached value: no
fetch, no write, the cache untouched. -/
lemma orgIdCycles_from_truthy (envs : List Env) (c : String) (hc : c ≠ "") :
    orgIdCycles envs (some c)
      = List.replicate envs.length
          (OrgIdResult.mk (some c) (some c) false none) := by
  induction envs with
  | nil => rfl
  | cons e rest ih =>
    simp [orgIdCycles, getOrganizationId_cached e c hc, ih,
      List.replicate_succ]

/-- Claim C3: starting from a cache with no truthy identifier, a cycle
whose bootstrap fetch succeeds and yields the identifier s writes s to the
cache exactly once (the first result carries the single write), and every
subsequent call returns the cached s without fetching bootstrap again. -/
theorem orgId_cached_once (env₀ : Env) (envs : List Env)
    (cache₀ : Option String) (s : String)
    (resp : FetchResult (Option BootstrapDoc)) (data : Option BootstrapDoc)
    (h₀ : truthyOpt cache₀ = false)
    (hresp : env₀.bootstrap = Except.ok resp)
    (hok : resp.ok = true)
    (hjson : resp.json = Except.ok data)
    (hex : extractOrgId data = some s)
    (hs : s ≠ "") :
    orgIdCycles (env₀ :: envs) cache₀
      = OrgIdResult.mk (some s) (some s) true (some s)
        :: List.replicate envs.length
            (OrgIdResult.mk (some s) (some s) false none) := by
  have hb : bootstrapFetchOrgId env₀ cache₀
      = OrgIdResult.mk (some s) (some s) true (some s) := by
    unfold bootstrapFetchOrgId
    rw [hresp]
    simp [hok, hjson, hex, hs]
  have h1 : getOrganizationId env₀ cache₀
      = OrgIdResult.mk (some s) (some s) true (some s) := by
    rcases cache₀ with _ | c
    · simpa [getOrganizationId] using hb
    · have hc : c = "" := by simpa [truthyOpt] using h₀
      subst hc
      simpa [getOrganizationId] using hb
  simp [orgIdCycles, h1, orgIdCycles_from_truthy envs s hs]

/-- Witness for C3: a successful first cycle with org-1 followed by one
more cycle that reads the cache without fetching. -/
theorem orgId_cached_once_witness :
    orgIdCycles [egEnv, egEnvBad] none
      = OrgIdResult.mk (some "org-1") (some "org-1") true (some "org-1")
        :: List.replicate 1
            (OrgIdResult.mk (some "org-1") (some "org-1") false none) :=
  orgId_cached_once egEnv [egEnvBad] none "org-1"
    ⟨true, 200, Except.ok egBootBody⟩ egBootBody rfl rfl rfl rfl rfl
    (by decide)

end ClaudeUsage
